import Mathlib

/-!
Shallow embedding of the IdeaScape infinite-canvas graph engine
(the zustand canvas store and the canvas component's wheel-zoom geometry).

Numbers that are IEEE doubles in the source are modelled as rationals;
`Date.now()`-derived ids and timestamps are passed in explicitly as
parameters (`newId`, `now`), since the store only ever treats them as
opaque values.  Fields of the store that no verified operation reads or
writes (tag filters, AI-suggestion scratch state, highlighted group) are
omitted from the state record; every modelled operation leaves them
untouched in the source as well.
-/

namespace IdeaScape

/-- 2-D point, source `Point`. -/
structure Point where
  x : ℚ
  y : ℚ
deriving DecidableEq

/-- The `content.type` union `'text' | 'image' | 'link' | 'video'`. -/
inductive ContentType where
  | text
  | image
  | link
  | video
deriving DecidableEq

/-- One `{ url, title }` entry of `content.links`. -/
structure LinkRef where
  url : String
  title : String
deriving DecidableEq

/-- The `content` field of a node. -/
structure NodeContent where
  type : ContentType
  value : String
  title : Option String := none
  images : Option (List String) := none
  links : Option (List LinkRef) := none
  videos : Option (List String) := none
deriving DecidableEq

/-- Source `Node`.  `createdAt`/`updatedAt` are abstract timestamps. -/
structure Node where
  id : String
  x : ℚ
  y : ℚ
  width : ℚ
  height : ℚ
  content : NodeContent
  groupId : Option String := none
  color : String
  selected : Bool
  isNew : Option Bool := none
  createdAt : ℕ
  updatedAt : ℕ
  comment : Option String := none
  tags : Option (List String) := none
deriving DecidableEq

/-- Source `Connection`. -/
structure Connection where
  id : String
  fromNodeId : String
  toNodeId : String
  fromPoint : Option String := none
  toPoint : Option String := none
  color : String
deriving DecidableEq

/-- Source `NodeGroup`. -/
structure NodeGroup where
  id : String
  name : String
  color : String
  nodes : List String
deriving DecidableEq

/-- Source `CanvasTransform`. -/
structure CanvasTransform where
  x : ℚ
  y : ℚ
  scale : ℚ
deriving DecidableEq

/-- Source `SelectionBox`. -/
structure SelectionBox where
  startX : ℚ
  startY : ℚ
  endX : ℚ
  endY : ℚ
  isActive : Bool
deriving DecidableEq

/-- One `{ nodes, connections, groups }` history snapshot. -/
structure Snapshot where
  nodes : List Node
  connections : List Connection
  groups : List NodeGroup
deriving DecidableEq

/-- The `history` slot of the store: `past` / `present` / `future`. -/
structure History where
  past : List Snapshot
  present : Snapshot
  future : List Snapshot
deriving DecidableEq

/-- The `settings` slot (theme plus profile), flattened. -/
structure Settings where
  theme : String
  username : String
  email : String
deriving DecidableEq

/-- The canvas store state (`CanvasState` in the source), restricted to the
fields the verified operations read or write. -/
structure CanvasState where
  canvasName : String
  nodes : List Node
  connections : List Connection
  groups : List NodeGroup
  transform : CanvasTransform
  selectedNodeId : Option String
  selectedNodeIds : List String
  selectionBox : SelectionBox
  isDragging : Bool
  isConnecting : Bool
  connectingFromNodeId : Option String
  history : History
  settings : Settings
deriving DecidableEq

/-- The three default groups of `initialState`. -/
def initialGroups : List NodeGroup :=
  [ { id := "coral", name := "Coral Group", color := "#f87171", nodes := [] },
    { id := "blue", name := "Blue Group", color := "#3b82f6", nodes := [] },
    { id := "green", name := "Green Group", color := "#10b981", nodes := [] } ]

/-- The empty history snapshot. -/
def emptySnapshot : Snapshot := { nodes := [], connections := [], groups := [] }

/-- Source `initialState`. -/
def initialState : CanvasState :=
  { canvasName := "Untitled Canvas"
    nodes := []
    connections := []
    groups := initialGroups
    transform := { x := 0, y := 0, scale := 1 }
    selectedNodeId := none
    selectedNodeIds := []
    selectionBox := { startX := 0, startY := 0, endX := 0, endY := 0, isActive := false }
    isDragging := false
    isConnecting := false
    connectingFromNodeId := none
    history := { past := [], present := emptySnapshot, future := [] }
    settings := { theme := "system", username := "", email := "" } }

/-- The default content of a freshly added node. -/
def defaultContent : NodeContent :=
  { type := ContentType.text
    value := "<p style=\"font-size: 14px;\">Double-click to edit</p>" }

/-- The history-commit block shared verbatim by `addNode`, `duplicateNode`,
`deleteNode`, `deleteNodes` and `saveToHistory`: push the current
`history.present` onto `past`, set `present` to the current live
nodes/connections/groups, clear `future`. -/
def commitLive (s : CanvasState) : CanvasState :=
  { s with history :=
      { past := s.history.past ++ [s.history.present]
        present := { nodes := s.nodes, connections := s.connections, groups := s.groups }
        future := [] } }

/-- The fresh node built by `addNode`. -/
def freshNode (newId : String) (now : ℕ) (x y : ℚ) : Node :=
  { id := newId, x := x, y := y, width := 200, height := 120
    content := defaultContent, color := "#ffffff", selected := false
    isNew := some true, createdAt := now, updatedAt := now }

/-- Source `addNode`: append a default node, then commit to history. -/
def addNode (newId : String) (now : ℕ) (x y : ℚ) (s : CanvasState) : CanvasState :=
  commitLive { s with nodes := s.nodes ++ [freshNode newId now x y] }

/-- Source `duplicateNode`: silently no-op when the id is absent, else
append an offset copy and commit to history. -/
def duplicateNode (newId : String) (now : ℕ) (id : String) (s : CanvasState) : CanvasState :=
  match s.nodes.find? (fun n => n.id == id) with
  | none => s
  | some n =>
    commitLive { s with nodes := s.nodes ++
      [{ n with
          id := newId
          x := n.x + 20
          y := n.y + 20
          selected := false
          isNew := some true
          createdAt := now
          updatedAt := now }] }

/-- A `Partial<Node>` argument of `updateNode`; `none` means the field is
absent from the update object.  (For `groupId` and `comment` the inner
`Option` is the field's own optionality.) -/
structure NodeUpdates where
  x : Option ℚ := none
  y : Option ℚ := none
  width : Option ℚ := none
  height : Option ℚ := none
  content : Option NodeContent := none
  groupId : Option (Option String) := none
  color : Option String := none
  selected : Option Bool := none
  isNew : Option (Option Bool) := none
  comment : Option (Option String) := none
  tags : Option (Option (List String)) := none
deriving DecidableEq

/-- Object-spread merge `{ ...node, ...updates, updatedAt: new Date() }`. -/
def applyNodeUpdates (n : Node) (u : NodeUpdates) (now : ℕ) : Node :=
  { id := n.id
    x := u.x.getD n.x
    y := u.y.getD n.y
    width := u.width.getD n.width
    height := u.height.getD n.height
    content := u.content.getD n.content
    groupId := u.groupId.getD n.groupId
    color := u.color.getD n.color
    selected := u.selected.getD n.selected
    isNew := u.isNew.getD n.isNew
    createdAt := n.createdAt
    updatedAt := now
    comment := u.comment.getD n.comment
    tags := u.tags.getD n.tags }

/-- Source `updateNode`: merge fields into the matching node and re-stamp
`updatedAt`.  It does not touch `history`. -/
def updateNode (id : String) (u : NodeUpdates) (now : ℕ) (s : CanvasState) : CanvasState :=
  { s with nodes := s.nodes.map fun n => if n.id == id then applyNodeUpdates n u now else n }

/-- Source `deleteNode`: cascade-remove the node, its incident connections
and its group memberships, then commit to history. -/
def deleteNode (id : String) (s : CanvasState) : CanvasState :=
  commitLive
    { s with
      nodes := s.nodes.filter (fun n => n.id != id)
      connections := s.connections.filter (fun c => c.fromNodeId != id && c.toNodeId != id)
      groups := s.groups.map (fun g => { g with nodes := g.nodes.filter (fun nid => nid != id) })
      selectedNodeId := if s.selectedNodeId == some id then none else s.selectedNodeId }

/-- Source `deleteNodes` (multi-delete), same cascade for a list of ids. -/
def deleteNodes (ids : List String) (s : CanvasState) : CanvasState :=
  commitLive
    { s with
      nodes := s.nodes.filter (fun n => !ids.contains n.id)
      connections := s.connections.filter
        (fun c => !ids.contains c.fromNodeId && !ids.contains c.toNodeId)
      groups := s.groups.map (fun g => { g with nodes := g.nodes.filter (fun nid => !ids.contains nid) })
      selectedNodeId := none
      selectedNodeIds := [] }

/-- Source `clearCanvas`: drop all nodes and connections and commit. -/
def clearCanvas (s : CanvasState) : CanvasState :=
  commitLive { s with nodes := [], connections := [], selectedNodeId := none }

/-- The duplicate test of `addConnection`: an existing connection joining
`a` and `b` in either direction. -/
def connMatches (a b : String) (c : Connection) : Bool :=
  (c.fromNodeId == a && c.toNodeId == b) || (c.fromNodeId == b && c.toNodeId == a)

/-- Source `addConnection`: no-op on a self-loop or an existing pair in
either direction; otherwise append the connection and leave connecting
mode.  It validates neither node id and does not touch `history`. -/
def addConnection (newId fromNodeId toNodeId : String)
    (fromPoint toPoint : Option String) (s : CanvasState) : CanvasState :=
  if fromNodeId == toNodeId then s
  else if s.connections.any (connMatches fromNodeId toNodeId) then s
  else
    { s with
      connections := s.connections ++
        [{ id := newId
           fromNodeId := fromNodeId
           toNodeId := toNodeId
           fromPoint := fromPoint
           toPoint := toPoint
           color := "#000000" }]
      isConnecting := false
      connectingFromNodeId := none }

/-- Source `deleteConnection`. -/
def deleteConnection (id : String) (s : CanvasState) : CanvasState :=
  { s with connections := s.connections.filter (fun c => c.id != id) }

/-- Source `addGroup`: append the group and stamp `groupId` on the listed
nodes.  Member ids are not validated and other groups' member lists are
not updated. -/
def addGroup (newId : String) (name color : String) (nodeIds : List String)
    (s : CanvasState) : CanvasState :=
  { s with
    groups := s.groups ++ [{ id := newId, name := name, color := color, nodes := nodeIds }]
    nodes := s.nodes.map fun n =>
      if nodeIds.contains n.id then { n with groupId := some newId } else n }

/-- A `Partial<NodeGroup>` argument of `updateGroup`. -/
structure GroupUpdates where
  name : Option String := none
  color : Option String := none
  nodes : Option (List String) := none
deriving DecidableEq

/-- Source `updateGroup`: spread-merge into the matching group. -/
def updateGroup (id : String) (u : GroupUpdates) (s : CanvasState) : CanvasState :=
  { s with groups := s.groups.map fun g =>
      if g.id == id then
        { id := g.id
          name := u.name.getD g.name
          color := u.color.getD g.color
          nodes := u.nodes.getD g.nodes }
      else g }

/-- Source `deleteGroup`: drop the group and clear `groupId` on members. -/
def deleteGroup (id : String) (s : CanvasState) : CanvasState :=
  { s with
    groups := s.groups.filter (fun g => g.id != id)
    nodes := s.nodes.map fun n =>
      if n.groupId == some id then { n with groupId := none } else n }

/-- `[...new Set([...xs, ...ys])]`: append keeping first occurrences. -/
def dedupFirst (l : List String) : List String :=
  l.foldl (fun acc x => if acc.contains x then acc else acc ++ [x]) []

/-- Source `assignNodesToGroup`: no-op when the group id does not resolve,
else move the listed nodes into the group (and out of every other one). -/
def assignNodesToGroup (nodeIds : List String) (groupId : String)
    (s : CanvasState) : CanvasState :=
  match s.groups.find? (fun g => g.id == groupId) with
  | none => s
  | some _ =>
    { s with
      nodes := s.nodes.map fun n =>
        if nodeIds.contains n.id then { n with groupId := some groupId } else n
      groups := s.groups.map fun g =>
        if g.id == groupId then { g with nodes := dedupFirst (g.nodes ++ nodeIds) }
        else { g with nodes := g.nodes.filter (fun i => !nodeIds.contains i) } }

/-- Source `addNodeToGroup`: single-node version of the same. -/
def addNodeToGroup (nodeId groupId : String) (s : CanvasState) : CanvasState :=
  match s.groups.find? (fun g => g.id == groupId) with
  | none => s
  | some _ =>
    { s with
      nodes := s.nodes.map fun n =>
        if n.id == nodeId then { n with groupId := some groupId } else n
      groups := s.groups.map fun g =>
        if g.id == groupId then { g with nodes := dedupFirst (g.nodes ++ [nodeId]) }
        else { g with nodes := g.nodes.filter (fun i => i != nodeId) } }

/-- A `Partial<CanvasTransform>` argument of `setTransform`. -/
structure TransformUpdates where
  x : Option ℚ := none
  y : Option ℚ := none
  scale : Option ℚ := none
deriving DecidableEq

/-- Source `setTransform`: spread-merge into the transform, with no
clamping of any field. -/
def setTransform (u : TransformUpdates) (s : CanvasState) : CanvasState :=
  { s with transform :=
      { x := u.x.getD s.transform.x
        y := u.y.getD s.transform.y
        scale := u.scale.getD s.transform.scale } }

/-- Source `zoomIn`: multiply the scale by 1.2, capped above at 3. -/
def zoomIn (s : CanvasState) : CanvasState :=
  { s with transform := { s.transform with scale := min (s.transform.scale * (6 / 5)) 3 } }

/-- Source `zoomOut`: divide the scale by 1.2, floored below at 0.1. -/
def zoomOut (s : CanvasState) : CanvasState :=
  { s with transform := { s.transform with scale := max (s.transform.scale / (6 / 5)) (1 / 10) } }

/-- Source `fitToScreen`: bounding box of all nodes plus 100 padding,
scale `min(scaleX, scaleY, 2)` (no lower bound), centered translation.
The `Infinity` fold initialisers are realised by folding from the first
node, equivalent on the non-empty list the early return guarantees. -/
def fitToScreen (canvasSize : Point) (s : CanvasState) : CanvasState :=
  match s.nodes with
  | [] => s
  | n0 :: rest =>
    let minX := (rest.foldl (fun m n => min m n.x) n0.x) - 100
    let minY := (rest.foldl (fun m n => min m n.y) n0.y) - 100
    let maxX := (rest.foldl (fun m n => max m (n.x + n.width)) (n0.x + n0.width)) + 100
    let maxY := (rest.foldl (fun m n => max m (n.y + n.height)) (n0.y + n0.height)) + 100
    let contentWidth := maxX - minX
    let contentHeight := maxY - minY
    let scale := min (min (canvasSize.x / contentWidth) (canvasSize.y / contentHeight)) 2
    let x := (canvasSize.x - contentWidth * scale) / 2 - minX * scale
    let y := (canvasSize.y - contentHeight * scale) / 2 - minY * scale
    { s with transform := { x := x, y := y, scale := scale } }

/-- Source `selectNode`. -/
def selectNode (id : Option String) (s : CanvasState) : CanvasState :=
  { s with
    selectedNodeId := id
    selectedNodeIds := match id with | some i => [i] | none => []
    nodes := s.nodes.map fun n => { n with selected := some n.id == id } }

/-- Source `setDragging`. -/
def setDragging (isDragging : Bool) (s : CanvasState) : CanvasState :=
  { s with isDragging := isDragging }

/-- Source `startSelectionBox`. -/
def startSelectionBox (x y : ℚ) (s : CanvasState) : CanvasState :=
  { s with selectionBox := { startX := x, startY := y, endX := x, endY := y, isActive := true } }

/-- Source `undo`.  Note: the returned history keeps `present` unchanged
(mirroring `present: state.history.present` in the source) even though the
live collections become the popped snapshot. -/
def undo (s : CanvasState) : CanvasState :=
  match s.history.past.getLast? with
  | none => s
  | some previous =>
    { s with
      nodes := previous.nodes
      connections := previous.connections
      groups := previous.groups
      history :=
        { past := s.history.past.dropLast
          present := s.history.present
          future := s.history.present :: s.history.future } }

/-- Source `redo`. -/
def redo (s : CanvasState) : CanvasState :=
  match s.history.future with
  | [] => s
  | next :: rest =>
    { s with
      nodes := next.nodes
      connections := next.connections
      groups := next.groups
      history :=
        { past := s.history.past ++ [s.history.present]
          present := next
          future := rest } }

/-- Source `saveToHistory` is exactly the shared commit block. -/
def saveToHistory (s : CanvasState) : CanvasState := commitLive s

/-- `screenToCanvas` of the canvas component: screen → world coordinates
(the canvas-relative mouse position is the argument). -/
def screenToCanvas (p : Point) (t : CanvasTransform) : Point :=
  { x := (p.x - t.x) / t.scale
    y := (p.y - t.y) / t.scale }

/-- The zoom branch of the component's `handleWheel`: clamp the new scale
to `[0.1, 3]`, take the world point currently under the mouse, and rebuild
the translation so that the same world point stays under the mouse. -/
def wheelZoom (t : CanvasTransform) (mouse : Point) (delta : ℚ) : CanvasTransform :=
  let newScale := max (1 / 10) (min 3 (t.scale * delta))
  let worldMouseX := (mouse.x - t.x) / t.scale
  let worldMouseY := (mouse.y - t.y) / t.scale
  { x := mouse.x - worldMouseX * newScale
    y := mouse.y - worldMouseY * newScale
    scale := newScale }

/-- A node as it appears in parsed import data: timestamps may be absent
(`node.createdAt || now` backfills them). -/
structure ImportNode where
  id : String
  x : ℚ
  y : ℚ
  width : ℚ
  height : ℚ
  content : NodeContent
  groupId : Option String := none
  color : String
  selected : Bool := false
  isNew : Option Bool := none
  createdAt : Option ℕ := none
  updatedAt : Option ℕ := none
  comment : Option String := none
  tags : Option (List String) := none
deriving DecidableEq

/-- The result of a successful `JSON.parse` inside `importCanvas`; each
top-level field may be absent (the source defaults it with `||`). -/
structure ImportData where
  canvasName : Option String := none
  nodes : Option (List ImportNode) := none
  connections : Option (List Connection) := none
  groups : Option (List NodeGroup) := none
  transform : Option CanvasTransform := none
deriving DecidableEq

/-- The timestamp backfill `importCanvas` maps over parsed nodes. -/
def importNodeStamp (now : ℕ) (n : ImportNode) : Node :=
  { id := n.id
    x := n.x
    y := n.y
    width := n.width
    height := n.height
    content := n.content
    groupId := n.groupId
    color := n.color
    selected := n.selected
    isNew := n.isNew
    createdAt := n.createdAt.getD now
    updatedAt := n.updatedAt.getD now
    comment := n.comment
    tags := n.tags }

/-- Source `importCanvas`.  `none` models an input on which `JSON.parse`
throws (the `catch` only logs, leaving the state untouched); `some d`
models any successfully parsed object.  No structural validation is
performed before the live graph is replaced. -/
def importCanvas (now : ℕ) (input : Option ImportData) (s : CanvasState) : CanvasState :=
  match input with
  | none => s
  | some parsed =>
    { s with
      canvasName := parsed.canvasName.getD "Untitled Canvas"
      nodes := (parsed.nodes.getD []).map (importNodeStamp now)
      connections := parsed.connections.getD []
      groups := parsed.groups.getD []
      transform := parsed.transform.getD { x := 0, y := 0, scale := 1 }
      selectedNodeId := none
      selectedNodeIds := [] }

/-- Some node of the state carries this id. -/
def nodeExists (s : CanvasState) (nid : String) : Prop :=
  ∃ n ∈ s.nodes, n.id = nid

/-- The referential-integrity invariant of spec §8: every connection
endpoint resolves to an existing node, and every group member resolves to
an existing node whose `groupId` is that group. -/
def refIntegrity (s : CanvasState) : Prop :=
  (∀ c ∈ s.connections, nodeExists s c.fromNodeId ∧ nodeExists s c.toNodeId) ∧
  (∀ g ∈ s.groups, ∀ nid ∈ g.nodes, ∃ n ∈ s.nodes, n.id = nid ∧ n.groupId = some g.id)

instance (s : CanvasState) (nid : String) : Decidable (nodeExists s nid) :=
  List.decidableBEx _ s.nodes

instance (s : CanvasState) : Decidable (refIntegrity s) :=
  instDecidableAnd

/-- The live `{nodes, connections, groups}` collections of a state. -/
def liveSnapshot (s : CanvasState) : Snapshot :=
  { nodes := s.nodes, connections := s.connections, groups := s.groups }

/-- A history-committing mutation with resulting collections `d`: replace
the live collections and run the shared commit block.  `addNode`,
`duplicateNode` (id present), `deleteNode`, `deleteNodes` and
`clearCanvas` are all of this shape. -/
def commitData (d : Snapshot) (s : CanvasState) : CanvasState :=
  commitLive { s with nodes := d.nodes, connections := d.connections, groups := d.groups }

/-- A sequence of history-committing mutations, applied oldest first. -/
def applyCommits (ds : List Snapshot) (s : CanvasState) : CanvasState :=
  ds.foldl (fun st d => commitData d st) s

/-- `undo` iterated `k` times. -/
def undoN : ℕ → CanvasState → CanvasState
  | 0, s => s
  | k + 1, s => undoN k (undo s)

/-- `redo` iterated `k` times. -/
def redoN : ℕ → CanvasState → CanvasState
  | 0, s => s
  | k + 1, s => redoN k (redo s)

/-- A reachable state holding one node `n1`: `addNode` applied to the
initial state. -/
def oneNodeState : CanvasState := addNode "n1" 0 0 0 initialState

/-- A reachable state holding nodes `n1` and `n2`. -/
def twoNodeState : CanvasState := addNode "n2" 1 300 0 oneNodeState

/-- A reachable state with a connection `n1 → n2`. -/
def connState : CanvasState := addConnection "c1" "n1" "n2" none none twoNodeState

/-- A reachable state whose single node was widened to 10000. -/
def wideNodeState : CanvasState :=
  updateNode "n1" { width := some 10000 } 1 oneNodeState

/-- A parseable but structurally invalid import payload: a connection
between two node ids while the node list is empty. -/
def badImportData : ImportData :=
  { nodes := some []
    connections := some
      [{ id := "c", fromNodeId := "missing1", toNodeId := "missing2", color := "#000000" }] }

/-- The state contains a connection joining `a` and `b`, in either
direction (the duplicate test of `addConnection`). -/
def connBetween (a b : String) (s : CanvasState) : Prop :=
  s.connections.any (connMatches a b) = true

instance (a b : String) (s : CanvasState) : Decidable (connBetween a b s) :=
  inferInstanceAs (Decidable (s.connections.any (connMatches a b) = true))

end IdeaScape

namespace IdeaScape

/-- Claim C1, counterexample: `updateNode` and `addConnection` change the
graph data of a reachable state yet leave `history` entirely untouched, so
they do not push a snapshot onto `past`. -/
theorem c1_counterexample :
    (updateNode "n1" { color := some "#ff0000" } 5 oneNodeState).nodes ≠ oneNodeState.nodes ∧
    (updateNode "n1" { color := some "#ff0000" } 5 oneNodeState).history = oneNodeState.history ∧
    (addConnection "c1" "n1" "n2" none none oneNodeState).connections ≠
      oneNodeState.connections ∧
    (addConnection "c1" "n1" "n2" none none oneNodeState).history = oneNodeState.history := by
  decide

/-- Claim C1 (amended): `addNode`, `duplicateNode` (on a present id),
`deleteNode`, `deleteNodes` and `clearCanvas` each push exactly one
snapshot (the pre-operation `history.present`) onto `past` and clear
`future`, while `updateNode`, `addConnection`, `deleteConnection`,
`addGroup`, `updateGroup`, `deleteGroup` and the ephemeral UI operations
(`selectNode`, `setTransform`, `setDragging`, `startSelectionBox`) leave
the history unchanged. -/
theorem c1_amended_history_discipline (s : CanvasState) (newId dupId : String) (now : ℕ)
    (x y : ℚ) (nid cid a b gid gname gcolor : String) (nids : List String)
    (u : NodeUpdates) (gu : GroupUpdates) (fp tp sel : Option String)
    (tu : TransformUpdates) (drag : Bool)
    (hdup : (s.nodes.any fun n => n.id == dupId) = true) :
    ((addNode newId now x y s).history.past = s.history.past ++ [s.history.present] ∧
      (addNode newId now x y s).history.future = []) ∧
    ((duplicateNode newId now dupId s).history.past = s.history.past ++ [s.history.present] ∧
      (duplicateNode newId now dupId s).history.future = []) ∧
    ((deleteNode nid s).history.past = s.history.past ++ [s.history.present] ∧
      (deleteNode nid s).history.future = []) ∧
    ((deleteNodes nids s).history.past = s.history.past ++ [s.history.present] ∧
      (deleteNodes nids s).history.future = []) ∧
    ((clearCanvas s).history.past = s.history.past ++ [s.history.present] ∧
      (clearCanvas s).history.future = []) ∧
    (updateNode nid u now s).history = s.history ∧
    (addConnection cid a b fp tp s).history = s.history ∧
    (deleteConnection cid s).history = s.history ∧
    (addGroup gid gname gcolor nids s).history = s.history ∧
    (updateGroup gid gu s).history = s.history ∧
    (deleteGroup gid s).history = s.history ∧
    (selectNode sel s).history = s.history ∧
    (setTransform tu s).history = s.history ∧
    (setDragging drag s).history = s.history ∧
    (startSelectionBox x y s).history = s.history := by
  refine ⟨⟨rfl, rfl⟩, ?_, ⟨rfl, rfl⟩, ⟨rfl, rfl⟩, ⟨rfl, rfl⟩, rfl, ?_, rfl, rfl, rfl,
    rfl, rfl, rfl, rfl, rfl⟩
  · obtain ⟨n, hn, hid⟩ := List.any_eq_true.mp hdup
    unfold duplicateNode
    cases hfind : s.nodes.find? (fun n => n.id == dupId) with
    | none =>
      exact absurd hid (List.find?_eq_none.mp hfind n hn)
    | some m => exact ⟨rfl, rfl⟩
  · unfold addConnection
    split
    · rfl
    · split
      · rfl
      · rfl

/-- Witness for the C1 amended theorem: the hypothesis (the duplicated id
exists) holds in `oneNodeState`, and the theorem applies there. -/
theorem c1_amended_witness :
    (oneNodeState.nodes.any fun n => n.id == "n1") = true ∧
    (duplicateNode "dup" 7 "n1" oneNodeState).history.past =
      oneNodeState.history.past ++ [oneNodeState.history.present] ∧
    (duplicateNode "dup" 7 "n1" oneNodeState).history.future = [] :=
  ⟨by decide,
    (c1_amended_history_discipline oneNodeState "dup" "n1" 7 1 2 "x" "c" "p" "q" "g" "nm"
      "col" [] {} {} none none none {} false (by decide)).2.1⟩

/-- Claim C2, evaluated at the failing input: starting from the reachable
state `addNode("n1")` applied to the initial canvas, `undo()` restores the
live collections from the popped snapshot (nodes become empty) but leaves
`history.present` as the stale pre-undo snapshot instead of the popped
one, so the `present` slot disagrees with the live graph; the stale
`present` is also what gets pushed onto `future`. -/
theorem c2_undo_present_stale :
    (undo oneNodeState).nodes = [] ∧
    (undo oneNodeState).history.present = oneNodeState.history.present ∧
    (undo oneNodeState).history.present ≠ liveSnapshot (undo oneNodeState) ∧
    (undo oneNodeState).history.future = [oneNodeState.history.present] := by
  decide

/-- Claim C10: `undo` and `redo` modify only the live collections and the
history slots; the transform, selection fields, selection box, canvas name
and settings are left exactly unchanged. -/
theorem c10_undo_redo_frame (s : CanvasState) :
    (undo s).transform = s.transform ∧ (undo s).selectedNodeId = s.selectedNodeId ∧
    (undo s).selectedNodeIds = s.selectedNodeIds ∧ (undo s).selectionBox = s.selectionBox ∧
    (undo s).canvasName = s.canvasName ∧ (undo s).settings = s.settings ∧
    (redo s).transform = s.transform ∧ (redo s).selectedNodeId = s.selectedNodeId ∧
    (redo s).selectedNodeIds = s.selectedNodeIds ∧ (redo s).selectionBox = s.selectionBox ∧
    (redo s).canvasName = s.canvasName ∧ (redo s).settings = s.settings := by
  unfold undo redo
  cases s.history.past.getLast? <;> cases s.history.future <;> simp

/-- The duplicate test of `addConnection` is symmetric in the two ids. -/
theorem connMatches_comm (a b : String) (c : Connection) :
    connMatches b a c = connMatches a b c := by
  unfold connMatches
  exact Bool.or_comm _ _

/-- `any` over the duplicate test is symmetric in the two ids. -/
theorem any_connMatches_comm (a b : String) (l : List Connection) :
    l.any (connMatches b a) = l.any (connMatches a b) := by
  induction l with
  | nil => rfl
  | cons c tl ih => simp [List.any_cons, ih, connMatches_comm]

/-- `addConnection` on equal ids is a complete no-op. -/
theorem addConnection_noop_of_selfloop (i x y : String) (fp tp : Option String)
    (t : CanvasState) (h : (x == y) = true) :
    addConnection i x y fp tp t = t := by
  unfold addConnection
  rw [if_pos h]

/-- `addConnection` is a complete no-op when the duplicate test fires. -/
theorem addConnection_noop_of_found (i x y : String) (fp tp : Option String)
    (t : CanvasState) (hxy : ¬(x == y) = true)
    (h : t.connections.any (connMatches x y) = true) :
    addConnection i x y fp tp t = t := by
  unfold addConnection
  rw [if_neg hxy, if_pos h]

/-- When neither rejection fires, `addConnection` appends the connection. -/
theorem addConnection_appends (i x y : String) (fp tp : Option String)
    (t : CanvasState) (hxy : ¬(x == y) = true)
    (h : ¬ t.connections.any (connMatches x y) = true) :
    (addConnection i x y fp tp t).connections =
      t.connections ++
        [{ id := i, fromNodeId := x, toNodeId := y, fromPoint := fp, toPoint := tp
           color := "#000000" }] := by
  unfold addConnection
  rw [if_neg hxy, if_neg h]

/-- A second `addConnection` with the two ids swapped is always a complete
no-op: either the ids are equal (self-loop), or the first call left or
created a connection between them that the duplicate test finds. -/
theorem addConnection_symm_noop (s : CanvasState) (id1 id2 a b : String)
    (fp1 tp1 fp2 tp2 : Option String) :
    addConnection id2 b a fp2 tp2 (addConnection id1 a b fp1 tp1 s) =
      addConnection id1 a b fp1 tp1 s := by
  by_cases hab : (a == b) = true
  · have hba : (b == a) = true := by
      rw [beq_iff_eq] at hab ⊢
      exact hab.symm
    rw [addConnection_noop_of_selfloop _ _ _ _ _ _ hab,
      addConnection_noop_of_selfloop _ _ _ _ _ _ hba]
  · have hba : ¬ (b == a) = true := by
      rw [beq_iff_eq] at hab ⊢
      exact fun h => hab h.symm
    by_cases hdup : s.connections.any (connMatches a b) = true
    · rw [addConnection_noop_of_found _ _ _ _ _ _ hab hdup]
      exact addConnection_noop_of_found _ _ _ _ _ _ hba
        ((any_connMatches_comm a b s.connections).trans hdup)
    · apply addConnection_noop_of_found _ _ _ _ _ _ hba
      rw [addConnection_appends _ _ _ _ _ _ hab hdup, List.any_append]
      simp [connMatches]

/-- Claim C4: `addConnection` leaves the connection set unchanged on a
self-loop; when a connection between `a` and `b` already exists in either
direction both orders of the call are no-ops; and adding `(a,b)` then
`(b,a)` leaves the connection count equal to that after the first call. -/
theorem c4_duplicate_connection_rejected (s : CanvasState) (id1 id2 a b : String)
    (fp1 tp1 fp2 tp2 : Option String) :
    (addConnection id1 a a fp1 tp1 s).connections = s.connections ∧
    (connBetween a b s →
      (addConnection id1 a b fp1 tp1 s).connections = s.connections ∧
      (addConnection id1 b a fp1 tp1 s).connections = s.connections) ∧
    (addConnection id2 b a fp2 tp2 (addConnection id1 a b fp1 tp1 s)).connections.length =
      (addConnection id1 a b fp1 tp1 s).connections.length := by
  refine ⟨?_, fun h => ⟨?_, ?_⟩, by rw [addConnection_symm_noop]⟩
  · rw [addConnection_noop_of_selfloop _ _ _ _ _ _ (beq_self_eq_true a)]
  · have hfound : s.connections.any (connMatches a b) = true := h
    by_cases hab : (a == b) = true
    · rw [addConnection_noop_of_selfloop _ _ _ _ _ _ hab]
    · rw [addConnection_noop_of_found _ _ _ _ _ _ hab hfound]
  · have hfound : s.connections.any (connMatches b a) = true :=
      (any_connMatches_comm a b s.connections).trans h
    by_cases hba : (b == a) = true
    · rw [addConnection_noop_of_selfloop _ _ _ _ _ _ hba]
    · rw [addConnection_noop_of_found _ _ _ _ _ _ hba hfound]

/-- Witness for C4: in the reachable state `connState` a connection
`n1 → n2` exists, and both re-adds are rejected. -/
theorem c4_witness :
    connBetween "n1" "n2" connState ∧
    (addConnection "c9" "n1" "n2" none none connState).connections = connState.connections ∧
    (addConnection "c9" "n2" "n1" none none connState).connections = connState.connections :=
  ⟨by decide,
    (c4_duplicate_connection_rejected connState "c9" "c8" "n1" "n2"
      none none none none).2.1 (by decide)⟩

/-- Claim C5, counterexample: on a reachable state satisfying referential
integrity, `addConnection` with two nonexistent node ids creates a
dangling connection instead of validating and ignoring them. -/
theorem c5_counterexample :
    refIntegrity oneNodeState ∧
    ¬ refIntegrity (addConnection "c9" "ghostA" "ghostB" none none oneNodeState) ∧
    (addConnection "c9" "ghostA" "ghostB" none none oneNodeState).connections ≠ [] := by
  decide

/-- The delete cascade of `deleteNode` preserves referential integrity:
incident connections and group memberships of the removed node are
removed, and every surviving reference still resolves. -/
theorem deleteNode_preserves_refIntegrity (s : CanvasState) (nid : String)
    (hint : refIntegrity s) : refIntegrity (deleteNode nid s) := by
  obtain ⟨hconn, hgrp⟩ := hint
  constructor
  · intro c hc
    have hc2 : c ∈ s.connections.filter
        (fun c => c.fromNodeId != nid && c.toNodeId != nid) := hc
    rw [List.mem_filter] at hc2
    obtain ⟨hmem, hcond⟩ := hc2
    rw [Bool.and_eq_true, bne_iff_ne, bne_iff_ne] at hcond
    obtain ⟨hf, ht⟩ := hconn c hmem
    constructor
    · obtain ⟨n, hn, hnid⟩ := hf
      refine ⟨n, ?_, hnid⟩
      show n ∈ s.nodes.filter (fun n => n.id != nid)
      rw [List.mem_filter, bne_iff_ne]
      exact ⟨hn, hnid ▸ hcond.1⟩
    · obtain ⟨n, hn, hnid⟩ := ht
      refine ⟨n, ?_, hnid⟩
      show n ∈ s.nodes.filter (fun n => n.id != nid)
      rw [List.mem_filter, bne_iff_ne]
      exact ⟨hn, hnid ▸ hcond.2⟩
  · intro g hg nidm hmem
    have hg2 : g ∈ s.groups.map
        (fun g => { g with nodes := g.nodes.filter (fun x => x != nid) }) := hg
    rw [List.mem_map] at hg2
    obtain ⟨g0, hg0, hgeq⟩ := hg2
    have hmem2 : nidm ∈ g0.nodes.filter (fun x => x != nid) := by
      rw [← hgeq] at hmem
      exact hmem
    rw [List.mem_filter, bne_iff_ne] at hmem2
    obtain ⟨hm0, hne⟩ := hmem2
    obtain ⟨n, hn, hnid, hgid⟩ := hgrp g0 hg0 nidm hm0
    refine ⟨n, ?_, hnid, ?_⟩
    · show n ∈ s.nodes.filter (fun n => n.id != nid)
      rw [List.mem_filter, bne_iff_ne]
      exact ⟨hn, hnid ▸ hne⟩
    · rw [← hgeq]
      exact hgid

/-- Claim C5 (amended): the delete cascade preserves referential
integrity, and group assignment validates the group id (no-op when it
does not resolve); but `addConnection` and `addGroup` do not validate
node ids, so states with dangling references are reachable. -/
theorem c5_amended_integrity (s : CanvasState) (nid gid : String) (nids : List String)
    (hint : refIntegrity s)
    (hg : s.groups.find? (fun g => g.id == gid) = none) :
    refIntegrity (deleteNode nid s) ∧
    assignNodesToGroup nids gid s = s ∧
    addNodeToGroup nid gid s = s := by
  refine ⟨deleteNode_preserves_refIntegrity s nid hint, ?_, ?_⟩
  · unfold assignNodesToGroup
    rw [hg]
  · unfold addNodeToGroup
    rw [hg]

/-- Witness for the amended C5 at a concrete reachable state. -/
theorem c5_amended_witness :
    refIntegrity oneNodeState ∧
    oneNodeState.groups.find? (fun g => g.id == "nope") = none ∧
    refIntegrity (deleteNode "n1" oneNodeState) ∧
    assignNodesToGroup ["n1"] "nope" oneNodeState = oneNodeState :=
  ⟨by decide, by decide,
    (c5_amended_integrity oneNodeState "n1" "nope" ["n1"] (by decide) (by decide)).1,
    (c5_amended_integrity oneNodeState "n1" "nope" ["n1"] (by decide) (by decide)).2.1⟩

/-- Claim C6: wheel zoom about a screen point preserves the world point
under that screen point.  In this exact rational model the equality is
exact (hence in particular within any floating-point epsilon). -/
theorem c6_zoom_preserves_world_point (t : CanvasTransform) (p : Point) (f : ℚ)
    (hlo : 1 / 10 ≤ t.scale) (hhi : t.scale ≤ 3) :
    screenToCanvas p (wheelZoom t p f) = screenToCanvas p t := by
  have h0 : (0 : ℚ) < t.scale := lt_of_lt_of_le (by norm_num) hlo
  have hs : t.scale ≠ 0 := ne_of_gt h0
  have h0n : (0 : ℚ) < max (1 / 10) (min 3 (t.scale * f)) :=
    lt_of_lt_of_le (by norm_num) (le_max_left _ _)
  have hns : max (1 / 10) (min 3 (t.scale * f)) ≠ 0 := ne_of_gt h0n
  unfold screenToCanvas wheelZoom
  simp only [Point.mk.injEq]
  constructor <;> field_simp <;> ring

/-- Witness for C6 at a concrete transform, point and factor. -/
theorem c6_witness :
    ((1 : ℚ) / 10 ≤ (1 : ℚ) ∧ (1 : ℚ) ≤ 3) ∧
    screenToCanvas { x := 5, y := 7 }
        (wheelZoom { x := 0, y := 0, scale := 1 } { x := 5, y := 7 } 2) =
      screenToCanvas { x := 5, y := 7 } { x := 0, y := 0, scale := 1 } :=
  ⟨⟨by norm_num, by norm_num⟩,
    c6_zoom_preserves_world_point { x := 0, y := 0, scale := 1 } { x := 5, y := 7 } 2
      (by norm_num) (by norm_num)⟩

/-- Claim C7, counterexample: `setTransform` writes the requested scale
unclamped (scale 50 from the initial state), and `fitToScreen` has no
lower clamp (a 10000-wide node in a 100×100 viewport yields a scale below
0.1), so reachable states violate the `[0.1, 3]` bound. -/
theorem c7_counterexample :
    (1 / 10 ≤ initialState.transform.scale ∧ initialState.transform.scale ≤ 3) ∧
    (setTransform { scale := some 50 } initialState).transform.scale = 50 ∧
    ¬ (setTransform { scale := some 50 } initialState).transform.scale ≤ 3 ∧
    (fitToScreen { x := 100, y := 100 } wideNodeState).transform.scale < 1 / 10 := by
  refine ⟨⟨?_, ?_⟩, rfl, ?_, ?_⟩
  · rw [show initialState.transform.scale = 1 from rfl]
    norm_num
  · rw [show initialState.transform.scale = 1 from rfl]
    norm_num
  · rw [show (setTransform { scale := some 50 } initialState).transform.scale = 50 from rfl]
    norm_num
  · norm_num [fitToScreen, wideNodeState, updateNode, applyNodeUpdates, oneNodeState,
      addNode, freshNode, commitLive, initialState, defaultContent, min_def]

/-- Claim C7 (amended): `zoomIn`, `zoomOut` and the wheel zoom keep the
scale within `[0.1, 3]` (the wheel zoom unconditionally, the buttons
whenever the scale already is in bounds), and `fitToScreen` keeps the
scale at most 3 (it caps at 2); but `setTransform` writes the requested
scale unclamped and `fitToScreen` has no lower clamp, so the scale can
leave the bounds. -/
theorem c7_amended_zoom_scale_bounds (s : CanvasState) (t : CanvasTransform)
    (p cs : Point) (f : ℚ)
    (hlo : 1 / 10 ≤ s.transform.scale) (hhi : s.transform.scale ≤ 3) :
    ((1 / 10 ≤ (zoomIn s).transform.scale ∧ (zoomIn s).transform.scale ≤ 3) ∧
    (1 / 10 ≤ (zoomOut s).transform.scale ∧ (zoomOut s).transform.scale ≤ 3) ∧
    (1 / 10 ≤ (wheelZoom t p f).scale ∧ (wheelZoom t p f).scale ≤ 3)) ∧
    (fitToScreen cs s).transform.scale ≤ 3 := by
  refine ⟨⟨⟨?_, ?_⟩, ⟨?_, ?_⟩, ⟨?_, ?_⟩⟩, ?_⟩
  · show 1 / 10 ≤ min (s.transform.scale * (6 / 5)) 3
    apply le_min
    · linarith
    · norm_num
  · exact min_le_right _ _
  · exact le_max_right _ _
  · show max (s.transform.scale / (6 / 5)) (1 / 10) ≤ 3
    apply max_le
    · have h : s.transform.scale / (6 / 5) = s.transform.scale * (5 / 6) := by ring
      rw [h]
      linarith
    · norm_num
  · exact le_max_left _ _
  · show max (1 / 10) (min 3 (t.scale * f)) ≤ 3
    exact max_le (by norm_num) (min_le_left _ _)
  · show (fitToScreen cs s).transform.scale ≤ 3
    unfold fitToScreen
    cases s.nodes with
    | nil => exact hhi
    | cons n0 rest =>
      dsimp only
      exact le_trans (min_le_right _ _) (by norm_num)

/-- Witness for the amended C7 at the initial state. -/
theorem c7_amended_witness :
    (1 / 10 ≤ initialState.transform.scale ∧ initialState.transform.scale ≤ 3) ∧
    (1 / 10 ≤ (zoomIn initialState).transform.scale ∧
      (zoomIn initialState).transform.scale ≤ 3) :=
  ⟨⟨by rw [show initialState.transform.scale = 1 from rfl]; norm_num,
    by rw [show initialState.transform.scale = 1 from rfl]; norm_num⟩,
    (c7_amended_zoom_scale_bounds initialState { x := 0, y := 0, scale := 1 }
      { x := 0, y := 0 } { x := 800, y := 600 } 1
      (by rw [show initialState.transform.scale = 1 from rfl]; norm_num)
      (by rw [show initialState.transform.scale = 1 from rfl]; norm_num)).1.1⟩

/-- Claim C9, counterexample: a parseable but structurally invalid payload
(a connection whose endpoints match no node) is imported wholesale rather
than rejected: the live collections are replaced by the dangling data and
referential integrity is violated. -/
theorem c9_counterexample :
    (importCanvas 7 (some badImportData) oneNodeState).connections ≠
      oneNodeState.connections ∧
    (importCanvas 7 (some badImportData) oneNodeState).connections =
      [{ id := "c", fromNodeId := "missing1", toNodeId := "missing2", color := "#000000" }] ∧
    refIntegrity oneNodeState ∧
    ¬ refIntegrity (importCanvas 7 (some badImportData) oneNodeState) := by
  decide

/-- Claim C9 (amended): only unparseable input is rejected, and that
rejection is atomic (the state is returned unchanged); any successfully
parsed payload replaces the live collections and transform with its
fields, defaulted when absent and with node timestamps backfilled, with
no structural validation. -/
theorem c9_import_no_validation (now : ℕ) (s : CanvasState) (d : ImportData) :
    importCanvas now none s = s ∧
    (importCanvas now (some d) s).connections = d.connections.getD [] ∧
    (importCanvas now (some d) s).groups = d.groups.getD [] ∧
    (importCanvas now (some d) s).nodes = (d.nodes.getD []).map (importNodeStamp now) ∧
    (importCanvas now (some d) s).transform = d.transform.getD { x := 0, y := 0, scale := 1 } :=
  ⟨rfl, rfl, rfl, rfl, rfl⟩

/-- `applyCommits` over a snoc list runs the final commit last. -/
theorem applyCommits_append_single (ds : List Snapshot) (d : Snapshot) (s : CanvasState) :
    applyCommits (ds ++ [d]) s = commitData d (applyCommits ds s) := by
  unfold applyCommits
  rw [List.foldl_append]
  rfl

/-- Each commit grows `past` by exactly one entry. -/
theorem applyCommits_past_length (ds : List Snapshot) (s : CanvasState) :
    (applyCommits ds s).history.past.length = s.history.past.length + ds.length := by
  induction ds generalizing s with
  | nil => rfl
  | cons d tl ih =>
    show (applyCommits tl (commitData d s)).history.past.length = _
    rw [ih]
    have h2 : (commitData d s).history.past = s.history.past ++ [s.history.present] := rfl
    rw [h2]
    simp only [List.length_append, List.length_singleton, List.length_cons, List.length_nil]
    omega

/-- Through `k` undos (with enough history), `present` never changes (the
source keeps it) and each undo pushes a copy of it onto `future`. -/
theorem undoN_present_future (k : ℕ) :
    ∀ s : CanvasState, k ≤ s.history.past.length →
      (undoN k s).history.present = s.history.present ∧
      (undoN k s).history.future =
        List.replicate k s.history.present ++ s.history.future := by
  induction k with
  | zero =>
    intro s hk
    exact ⟨rfl, by simp [undoN]⟩
  | succ k ih =>
    intro s hk
    have hne : s.history.past ≠ [] := by
      intro h
      rw [h] at hk
      simp at hk
    obtain ⟨x, hx⟩ : ∃ x, s.history.past.getLast? = some x := by
      cases h : s.history.past.getLast? with
      | none => exact absurd (List.getLast?_eq_none_iff.mp h) hne
      | some x => exact ⟨x, rfl⟩
    have hundo : undo s = { s with
        nodes := x.nodes
        connections := x.connections
        groups := x.groups
        history := { past := s.history.past.dropLast
                     present := s.history.present
                     future := s.history.present :: s.history.future } } := by
      unfold undo
      rw [hx]
    have hk2 : k ≤ (undo s).history.past.length := by
      rw [hundo]
      simp only [List.length_dropLast]
      omega
    obtain ⟨hpres, hfut⟩ := ih (undo s) hk2
    constructor
    · show (undoN k (undo s)).history.present = _
      rw [hpres, hundo]
    · show (undoN k (undo s)).history.future = _
      rw [hfut, hundo]
      show List.replicate k s.history.present ++ (s.history.present :: s.history.future) = _
      rw [List.replicate_succ']
      simp [List.append_assoc]

/-- `k+1` redos from a future holding `k+1` copies of `p` leave the live
collections equal to `p`. -/
theorem redoN_replicate (k : ℕ) (p : Snapshot) (f : List Snapshot) :
    ∀ s : CanvasState, s.history.future = List.replicate (k + 1) p ++ f →
      liveSnapshot (redoN (k + 1) s) = p := by
  induction k with
  | zero =>
    intro s hs
    have hs2 : s.history.future = p :: f := by
      rw [hs]
      simp
    have hr : redo s = { s with
        nodes := p.nodes
        connections := p.connections
        groups := p.groups
        history := { past := s.history.past ++ [s.history.present]
                     present := p
                     future := f } } := by
      unfold redo
      rw [hs2]
    show liveSnapshot (redoN 0 (redo s)) = p
    rw [show redoN 0 (redo s) = redo s from rfl, hr]
    rfl
  | succ k ih =>
    intro s hs
    have hs2 : s.history.future = p :: (List.replicate (k + 1) p ++ f) := by
      rw [hs, List.replicate_succ, List.cons_append]
    have hr : redo s = { s with
        nodes := p.nodes
        connections := p.connections
        groups := p.groups
        history := { past := s.history.past ++ [s.history.present]
                     present := p
                     future := List.replicate (k + 1) p ++ f } } := by
      unfold redo
      rw [hs2]
    show liveSnapshot (redoN (k + 1) (redo s)) = p
    exact ih (redo s) (by rw [hr])

/-- Claim C3: for any starting state and any non-empty sequence of
history-committing mutations (N of them, the last producing collections
`d`), undoing N times and then redoing N times leaves the live
nodes/connections/groups equal to their values right after the N-th
mutation. -/
theorem c3_undo_redo_round_trip (s : CanvasState) (ds : List Snapshot) (d : Snapshot) :
    liveSnapshot (redoN (ds.length + 1)
      (undoN (ds.length + 1) (applyCommits (ds ++ [d]) s))) = d := by
  have h1 : applyCommits (ds ++ [d]) s = commitData d (applyCommits ds s) :=
    applyCommits_append_single ds d s
  have hpres : (applyCommits (ds ++ [d]) s).history.present = d := by
    rw [h1]
    rfl
  have hfut : (applyCommits (ds ++ [d]) s).history.future = [] := by
    rw [h1]
    rfl
  have hk : ds.length + 1 ≤ (applyCommits (ds ++ [d]) s).history.past.length := by
    rw [applyCommits_past_length]
    simp only [List.length_append, List.length_singleton]
    omega
  obtain ⟨hp2, hf2⟩ := undoN_present_future (ds.length + 1) _ hk
  exact redoN_replicate ds.length d [] _ (by rw [hf2, hpres, hfut, List.append_nil])

end IdeaScape
